import Mathlib

/-!
Verification of the cursor-info query engine's specification.

The repository's implementation is exercised by `unittests/SourceKit/SwiftLang/CursorInfoTest.cpp`;
the engine itself (DocumentBuffer, SnapshotStore, QueryResolver, WaitGate) is modelled here
from the specification, and the concrete test scenarios from the test file are replayed
against the model.
-/

namespace CursorInfo

/-- Modelled from the spec: an Edit record
`{sequence, offset, deletedLength, insertedLength, insertedText}`,
immutable once recorded, ordered by sequence.  `insertedLength` is the length of
`insertedText`. -/
structure Edit where
  sequence : Nat
  offset : Nat
  deletedLength : Nat
  insertedText : List Char
deriving DecidableEq

def Edit.insertedLength (e : Edit) : Nat := e.insertedText.length

/-- Modelled from the spec: applying an Edit to document text replaces the
`deletedLength` characters at `offset` with `insertedText`. -/
def applyEditToText (text : List Char) (e : Edit) : List Char :=
  text.take e.offset ++ e.insertedText ++ text.drop (e.offset + e.deletedLength)

/-- Modelled from the spec: a Document owns the current full text, the append-only
Edit log and the next sequence counter. -/
structure Document where
  name : String
  text : List Char
  log : List Edit
  nextSeq : Nat
deriving DecidableEq

inductive EditError where
  | outOfRange : EditError
deriving DecidableEq

/-- Modelled from the spec: `open(name, text, args)` creates a Document recording
Edit#0 as the full initial text. -/
def openDoc (name : String) (text : List Char) : Document :=
  { name := name, text := text,
    log := [{ sequence := 0, offset := 0, deletedLength := 0, insertedText := text }],
    nextSeq := 1 }

/-- Modelled from the spec: `applyEdit(name, offset, length, newText)` fails with
`OutOfRange` if `offset+length` exceeds the current text size; otherwise mutates the
text and appends an Edit. -/
def Document.applyEdit (doc : Document) (off len : Nat) (ins : List Char) :
    Except EditError Document :=
  if off + len ≤ doc.text.length then
    let e : Edit :=
      { sequence := doc.nextSeq, offset := off, deletedLength := len, insertedText := ins }
    Except.ok { doc with
      text := applyEditToText doc.text e,
      log := doc.log ++ [e],
      nextSeq := doc.nextSeq + 1 }
  else
    Except.error EditError.outOfRange

/-- Modelled from the spec: forward mapping through one Edit.  Positions before the
edit's original span are unchanged; positions at/after the span shift by
`insertedLength - deletedLength`; a position strictly inside
`[offset, offset+deletedLength)` has no valid forward mapping. -/
def Edit.mapForward (e : Edit) (o : Nat) : Option Nat :=
  if o < e.offset then some o
  else if o < e.offset + e.deletedLength then none
  else some (o + e.insertedLength - e.deletedLength)

/-- Modelled from the spec: inverse mapping through one Edit: an offset inside text
inserted by the edit (no corresponding pre-edit position) yields `Invalidated`
(`none`); other offsets map symmetrically to the forward direction. -/
def Edit.mapBackward (e : Edit) (o : Nat) : Option Nat :=
  if o < e.offset then some o
  else if o < e.offset + e.insertedLength then none
  else some (o + e.deletedLength - e.insertedLength)

/-- The Edits of a log applied strictly after `baseSeq`, in order. -/
def editsAfter (log : List Edit) (baseSeq : Nat) : List Edit :=
  log.filter (fun e => baseSeq < e.sequence)

/-- Modelled from the spec: `mapOffsetForward(baseSeq, offset)` applies every Edit
with `sequence > baseSeq`, in order, to an offset captured at `baseSeq`; `none` is
the `Invalidated` marker. -/
def mapOffsetForward (log : List Edit) (baseSeq o : Nat) : Option Nat :=
  (editsAfter log baseSeq).foldl (fun acc e => acc.bind e.mapForward) (some o)

/-- Modelled from the spec: inverse mapping (current coordinates → `baseSeq`
coordinates), defined symmetrically: each later Edit is undone in reverse order. -/
def mapOffsetBackward (log : List Edit) (baseSeq o : Nat) : Option Nat :=
  (editsAfter log baseSeq).reverse.foldl (fun acc e => acc.bind e.mapBackward) (some o)

/-- Forward mapping of a `(start, length)` range through one Edit: the range survives
only if it does not textually overlap the edit's original span; a range entirely at
or after the span shifts by `insertedLength - deletedLength`. -/
def Edit.mapRangeForward (e : Edit) (r : Nat × Nat) : Option (Nat × Nat) :=
  if r.1 + r.2 ≤ e.offset then some r
  else if e.offset + e.deletedLength ≤ r.1 then
    some (r.1 + e.insertedLength - e.deletedLength, r.2)
  else none

/-- Forward mapping of a range through every Edit after `baseSeq`, in order. -/
def mapRangeForwardAll (log : List Edit) (baseSeq : Nat) (r : Nat × Nat) :
    Option (Nat × Nat) :=
  (editsAfter log baseSeq).foldl (fun acc e => acc.bind e.mapRangeForward) (some r)

/-- Modelled from the spec: `rangeInvalidated(baseSeq, [start,end))` is true iff the
original range textually overlaps any Edit applied since `baseSeq`. -/
def rangeInvalidated (log : List Edit) (baseSeq : Nat) (r : Nat × Nat) : Bool :=
  (mapRangeForwardAll log baseSeq r).isNone

/-- A maximal run of identifier characters in the text, with its start offset. -/
structure Token where
  start : Nat
  chars : List Char
deriving DecidableEq

def isIdentChar (c : Char) : Bool := c.isAlpha || c.isDigit || c = '_'

def tokenizeAux : List Char → Nat → Option Token → List Token
  | [], _, none => []
  | [], _, some t => [t]
  | c :: rest, pos, none =>
    if isIdentChar c then tokenizeAux rest (pos + 1) (some ⟨pos, [c]⟩)
    else tokenizeAux rest (pos + 1) none
  | c :: rest, pos, some t =>
    if isIdentChar c then tokenizeAux rest (pos + 1) (some ⟨t.start, t.chars ++ [c]⟩)
    else t :: tokenizeAux rest (pos + 1) none

def tokenize (text : List Char) : List Token := tokenizeAux text 0 none

/-- The name tokens declared by `let` in a token stream. -/
def findDecls : List Token → List Token
  | t1 :: t2 :: rest =>
    if t1.chars = "let".data then t2 :: findDecls rest
    else findDecls (t2 :: rest)
  | _ => []

def skipInitPunct (c : Char) : Bool := c = ' ' || c = '='

/-- Offset of the first character of the initializer expression following position `p`
(skipping spaces and the equals sign). -/
def initStart (text : List Char) (p : Nat) : Nat :=
  p + ((text.drop p).takeWhile skipInitPunct).length

def intName : String := "Int"
def dictName : String := "[Int : Int]"

/-- The type of the initializer starting after position `p`: a dictionary literal has
type `[Int : Int]`, an integer literal has type `Int`. -/
def baseTypeAt (text : List Char) (p : Nat) : String :=
  match text.drop (initStart text p) with
  | [] => ""
  | c :: _ => if c = '[' then dictName else if c.isDigit then intName else ""

/-- The type of the declaration `d`: from its initializer's first character, following
one level of identifier reference. -/
def declTypeName (text : List Char) (decls : List Token) (d : Token) : String :=
  let s := initStart text (d.start + d.chars.length)
  match text.drop s with
  | [] => ""
  | c :: _ =>
    if c = '[' then dictName
    else if c.isDigit then intName
    else
      let refName := (text.drop s).takeWhile isIdentChar
      match decls.find? (fun d2 => d2.chars = refName) with
      | none => ""
      | some d2 => baseTypeAt text (d2.start + d2.chars.length)

/-- Modelled from the spec: an Occurrence is the result of querying a Snapshot at an
offset: `{Name, TypeName, FileName, tokenRange(offset,length), DeclarationLoc(offset,length)?}`,
all ranges in the Snapshot's own coordinate space. -/
structure Occurrence where
  Name : String
  TypeName : String
  FileName : String
  tokenLoc : Nat × Nat
  DeclarationLoc : Option (Nat × Nat)
deriving DecidableEq

def tokenAt (toks : List Token) (o : Nat) : Option Token :=
  toks.find? (fun t => t.start ≤ o && o < t.start + t.chars.length)

def startsWithDigit : List Char → Bool
  | [] => true
  | c :: _ => c.isDigit

/-- Modelled from the spec: the Analyzer collaborator's symbol resolution (the
parser/type-checker is out of scope of the repository core and absent from the
sources).  For the `let name = initializer` documents of the test scenarios it
resolves the identifier token at an offset to its `let` declaration, with the
declaration's initializer type. -/
def occurrenceAt (docName : String) (text : List Char) (o : Nat) : Option Occurrence :=
  let toks := tokenize text
  let decls := findDecls toks
  match tokenAt toks o with
  | none => none
  | some t =>
    if t.chars = "let".data || startsWithDigit t.chars then none
    else
      match decls.find? (fun d => d.chars = t.chars) with
      | none => none
      | some d =>
        some { Name := String.mk t.chars,
               TypeName := declTypeName text decls d,
               FileName := docName,
               tokenLoc := (t.start, t.chars.length),
               DeclarationLoc := some (d.start, d.chars.length) }

/-- Modelled from the spec: a Snapshot is an immutable analysis result tied to an
exact text content, tagged with `baseSequence`. -/
structure Snapshot where
  baseSequence : Nat
  text : List Char
deriving DecidableEq

/-- The document text as of sequence number `baseSeq`: all Edits with
`sequence ≤ baseSeq` applied in order to the empty text (Edit#0 inserts the full
initial text). -/
def textAtSeq (log : List Edit) (baseSeq : Nat) : List Char :=
  (log.filter (fun e => e.sequence ≤ baseSeq)).foldl applyEditToText []

/-- The Snapshot a build started at sequence `baseSeq` would produce. -/
def snapshotAt (doc : Document) (baseSeq : Nat) : Snapshot :=
  { baseSequence := baseSeq, text := textAtSeq doc.log baseSeq }

inductive Decision where
  | answerNow : Occurrence → Decision
  | mustWait : Decision
deriving DecidableEq

/-- Modelled from the spec: the QueryResolver core decision algorithm, steps 1-5.
No Snapshot → must-wait; query offset invalidated by a later edit → must-wait;
no Occurrence at the inverse-mapped offset → must-wait; DeclarationLoc range
invalidated → must-wait; otherwise forward-map the ranges and answer immediately. -/
def resolve (doc : Document) (snapOpt : Option Snapshot) (o : Nat) : Decision :=
  match snapOpt with
  | none => Decision.mustWait
  | some snap =>
    match mapOffsetBackward doc.log snap.baseSequence o with
    | none => Decision.mustWait
    | some o0 =>
      match occurrenceAt doc.name snap.text o0 with
      | none => Decision.mustWait
      | some occ =>
        let declInvalid :=
          match occ.DeclarationLoc with
          | some dr => rangeInvalidated doc.log snap.baseSequence dr
          | none => false
        if declInvalid then Decision.mustWait
        else
          match mapRangeForwardAll doc.log snap.baseSequence occ.tokenLoc with
          | none => Decision.mustWait
          | some tr =>
            match occ.DeclarationLoc with
            | none => Decision.answerNow { occ with tokenLoc := tr }
            | some dr =>
              match mapRangeForwardAll doc.log snap.baseSequence dr with
              | none => Decision.mustWait
              | some dr2 =>
                Decision.answerNow { occ with tokenLoc := tr, DeclarationLoc := some dr2 }

/-- Modelled from the spec: the Analyzer `analyze(documentName, fullText, arguments)`
produces a Snapshot of the given text; for the documents of this suite it succeeds
regardless of the analyzer arguments (invalid arguments do not fail the build). -/
def analyze (documentName : String) (fullText : List Char) (arguments : List String)
    (baseSeq : Nat) : Snapshot :=
  { baseSequence := baseSeq, text := fullText }

/-- The Snapshot the must-wait rebuild publishes: built from the document's current
text, with `baseSequence` the sequence of the youngest Edit. -/
def currentSnapshot (doc : Document) (args : List String) : Snapshot :=
  analyze doc.name doc.text args (doc.nextSeq - 1)

inductive QueryOutcome where
  | found : Occurrence → QueryOutcome
  | timeout : QueryOutcome
  | notFound : QueryOutcome
  | buildFailure : QueryOutcome
deriving DecidableEq

def QueryOutcome.isTimeout : QueryOutcome → Bool
  | QueryOutcome.timeout => true
  | _ => false

/-- Modelled from the spec: the full query path.  Resolve against the given Snapshot;
on must-wait, a rebuild on the current text publishes a fresh Snapshot and the
decision re-runs against it; in the absence of further racing edits a second
must-wait means the deadline elapses (`Timeout`) unless no Occurrence exists at the
offset at all (`NotFound`). -/
def queryAt (doc : Document) (snapOpt : Option Snapshot) (o : Nat)
    (args : List String) : QueryOutcome :=
  match resolve doc snapOpt o with
  | Decision.answerNow occ => QueryOutcome.found occ
  | Decision.mustWait =>
    match resolve doc (some (currentSnapshot doc args)) o with
    | Decision.answerNow occ => QueryOutcome.found occ
    | Decision.mustWait =>
      match occurrenceAt doc.name doc.text o with
      | none => QueryOutcome.notFound
      | some _ => QueryOutcome.timeout

/-- Outcome a resolved PendingQuery is signalled with. -/
inductive PendingOutcome where
  | success : Occurrence → PendingOutcome
  | failure : PendingOutcome
  | timedOut : PendingOutcome
deriving DecidableEq

inductive GateState where
  | unsignalled : GateState
  | signalled : PendingOutcome → GateState
deriving DecidableEq

/-- Modelled from the spec: `WaitGate.signal(result)` delivers the result exactly
once; subsequent calls are no-ops. -/
def GateState.signal : GateState → PendingOutcome → GateState
  | GateState.unsignalled, r => GateState.signalled r
  | GateState.signalled r0, _ => GateState.signalled r0

/-- The gate state after a sequence of `signal` calls on a fresh gate. -/
def runSignals (calls : List PendingOutcome) : GateState :=
  calls.foldl GateState.signal GateState.unsignalled

/-- Modelled from the spec: the resolution of a PendingQuery issues exactly one
`signal` call, whatever the outcome (success, failure, or timeout). -/
def resolutionSignals (o : PendingOutcome) : List PendingOutcome := [o]

inductive WaitOutcome where
  | delivered : PendingOutcome → WaitOutcome
  | expired : WaitOutcome
deriving DecidableEq

/-- Modelled from the spec: `wait(deadline)` suspends until signalled or the deadline
passes; `sig` records the time at which the gate is signalled, if ever. -/
def gateWait (deadline : Nat) (sig : Option (Nat × PendingOutcome)) : WaitOutcome :=
  match sig with
  | some (t, r) => if t ≤ deadline then WaitOutcome.delivered r else WaitOutcome.expired
  | none => WaitOutcome.expired

/-! ### Concrete test documents and scenarios -/

def docName : String := "/test.swift"
def contentsRefFirst : List Char := "let value = foo\nlet foo = 0\n".data
def contentsDeclFirst : List Char := "let foo = 0\nlet value = foo;\n".data
def contentsSingle : List Char := "let foo = 0\n".data
def contentsDeclRef : List Char := "let foo = 0\nlet value = foo\n".data
def expensiveInit : List Char := "[0:0,0:0,0:0,0:0,0:0,0:0,0:0]".data

def applyEdits (doc : Document) (es : List (Nat × Nat × List Char)) :
    Except EditError Document :=
  es.foldlM (fun d p => d.applyEdit p.1 p.2.1 p.2.2) doc

def buildDoc (base : Document) (es : List (Nat × Nat × List Char)) : Document :=
  match applyEdits base es with
  | Except.ok d => d
  | Except.error _ => base

def baseRefFirst : Document := openDoc docName contentsRefFirst
def baseDeclFirst : Document := openDoc docName contentsDeclFirst

def editAfterEdits : List (Nat × Nat × List Char) :=
  [(26, 1, expensiveInit), (20, 0, " ".data)]
def editAfterDoc : Document := buildDoc baseRefFirst editAfterEdits

def editBeforeEdits : List (Nat × Nat × List Char) :=
  [(10, 1, expensiveInit), (4, 0, " ".data)]
def editBeforeDoc : Document := buildDoc baseDeclFirst editBeforeEdits

def declLocDoc : Document := buildDoc baseRefFirst [(26, 1, expensiveInit), (20, 3, "foo".data)]
def offsetDoc : Document := buildDoc baseRefFirst [(26, 1, expensiveInit), (12, 3, "foo".data)]
def tokenDoc : Document :=
  buildDoc baseRefFirst [(26, 1, expensiveInit), (22, 1, "g".data), (14, 1, "g".data)]
def raceDoc : Document := buildDoc baseRefFirst [(22, 1, "g".data), (14, 1, "g".data)]
def fileNotExistDoc : Document := openDoc docName contentsSingle
def scenarioOneDoc : Document := openDoc docName contentsDeclRef

def stdArgs : List String := ["-parse-as-library", "/test.swift"]
def notExistArgs : List String := ["/<not-existent-file>", "/test.swift"]

/-! ### Helper lemmas -/

theorem runSignalsFromSignalled (rest : List PendingOutcome) (r : PendingOutcome) :
    rest.foldl GateState.signal (GateState.signalled r) = GateState.signalled r := by
  induction rest with
  | nil => rfl
  | cons a l ih =>
    rw [List.foldl_cons]
    exact ih

/-! ### Claims -/

/-- C1: A query is never answered from a Snapshot whose `baseSequence` predates the
edits applied at query time: in the open-then-rename race (document opened with the
needs-semantic-info build in flight, both `foo` identifiers renamed to `fog` before
the query), the resolver refuses both pre-rename Snapshots (`baseSequence` 0 and 1)
with must-wait, and the answer comes from the post-rename Snapshot: Name `fog`,
TypeName `Int`, DeclarationLoc at the declaration offset 20 with length 3. -/
theorem raceNeverAnsweredFromStaleSnapshot :
    resolve raceDoc (some (snapshotAt raceDoc 0)) 12 = Decision.mustWait
  ∧ resolve raceDoc (some (snapshotAt raceDoc 1)) 12 = Decision.mustWait
  ∧ queryAt raceDoc (some (snapshotAt raceDoc 0)) 12 stdArgs =
      QueryOutcome.found { Name := "fog", TypeName := "Int", FileName := docName,
                           tokenLoc := (12, 3), DeclarationLoc := some (20, 3) } := by
  decide

/-- C2: After an edit replacing the initializer `0` with a longer expression and a
second edit inserting one leading space before the declaration's `foo` (neither
touching the declaration-name span or the reference-name span), a query at the
reference's current offset answers immediately (no must-wait) with the old cached
TypeName `Int` and DeclarationLoc shifted by +1 with length still 3 — in both the
EditAfter scenario (reference before the edits, offset unchanged) and the EditBefore
scenario (reference after the edits). -/
theorem untouchedSpansAnswerImmediately :
    (applyEdits baseRefFirst editAfterEdits).toOption.isSome = true
  ∧ resolve editAfterDoc (some (snapshotAt editAfterDoc 0)) 12 =
      Decision.answerNow { Name := "foo", TypeName := "Int", FileName := docName,
                           tokenLoc := (12, 3), DeclarationLoc := some (21, 3) }
  ∧ (applyEdits baseDeclFirst editBeforeEdits).toOption.isSome = true
  ∧ resolve editBeforeDoc (some (snapshotAt editBeforeDoc 0)) 53 =
      Decision.answerNow { Name := "foo", TypeName := "Int", FileName := docName,
                           tokenLoc := (53, 3), DeclarationLoc := some (5, 3) } := by
  decide

/-- C3: If an edit rewrites exactly the 3-character declaration-name span, even with
identical replacement text (`foo` → `foo`), the next query at the reference offset
must-waits, and the answer reflects the newly built Snapshot: TypeName
`[Int : Int]` after the initializer became a dictionary literal, DeclarationLoc at
the declaration offset 20 with length 3. -/
theorem declSpanRewriteMustWait :
    resolve declLocDoc (some (snapshotAt declLocDoc 0)) 12 = Decision.mustWait
  ∧ queryAt declLocDoc (some (snapshotAt declLocDoc 0)) 12 stdArgs =
      QueryOutcome.found { Name := "foo", TypeName := "[Int : Int]", FileName := docName,
                           tokenLoc := (12, 3), DeclarationLoc := some (20, 3) } := by
  decide

/-- C4: If an edit rewrites the reference token's own span, even with identical
replacement text, the next query at that offset must-waits and the answer reflects
the fresh Snapshot: TypeName `[Int : Int]`, DeclarationLoc at offset 20 with
length 3. -/
theorem referenceSpanRewriteMustWait :
    resolve offsetDoc (some (snapshotAt offsetDoc 0)) 12 = Decision.mustWait
  ∧ queryAt offsetDoc (some (snapshotAt offsetDoc 0)) 12 stdArgs =
      QueryOutcome.found { Name := "foo", TypeName := "[Int : Int]", FileName := docName,
                           tokenLoc := (12, 3), DeclarationLoc := some (20, 3) } := by
  decide

/-- C5: If edits change one character of both the declaration and reference
identifiers (`foo` → `fog`), the next query at the reference offset must-waits, and
the answer has Name `fog`, TypeName `[Int : Int]` from the fresh Snapshot, and
DeclarationLoc pointing to the new 3-length span at the declaration offset 20. -/
theorem identifierRenameMustWait :
    resolve tokenDoc (some (snapshotAt tokenDoc 0)) 12 = Decision.mustWait
  ∧ queryAt tokenDoc (some (snapshotAt tokenDoc 0)) 12 stdArgs =
      QueryOutcome.found { Name := "fog", TypeName := "[Int : Int]", FileName := docName,
                           tokenLoc := (12, 3), DeclarationLoc := some (20, 3) } := by
  decide

/-- C6: After opening `"let foo = 0\nlet value = foo\n"`, a query issued at the
reference occurrence of `foo` (offset 24) before any Snapshot exists takes the
must-wait path, then returns Name `foo`, TypeName `Int`, the document's filename,
and DeclarationLoc (4, 3) — the declaration's `foo` with length 3. -/
theorem queryBeforeFirstSnapshotMustWait :
    resolve scenarioOneDoc none 24 = Decision.mustWait
  ∧ queryAt scenarioOneDoc none 24 stdArgs =
      QueryOutcome.found { Name := "foo", TypeName := "Int", FileName := docName,
                           tokenLoc := (24, 3), DeclarationLoc := some (4, 3) } := by
  decide

/-- C7: Forward mapping of an offset captured at `baseSeq` through a later Edit:
positions strictly before the edit's original span are unchanged; positions at or
after the span shift by `insertedLength - deletedLength`; positions strictly inside
the deleted span yield `Invalidated` (`none`), not a number.  Concretely, the
EditBefore reference offset 24 shifts by the net +28 of the initializer replacement
plus the +1 of the space insertion, to 53. -/
theorem mapOffsetForwardPointwise (e : Edit) (baseSeq o : Nat) (h : baseSeq < e.sequence) :
    (o < e.offset → mapOffsetForward [e] baseSeq o = some o)
  ∧ (e.offset + e.deletedLength ≤ o →
      mapOffsetForward [e] baseSeq o = some (o + e.insertedLength - e.deletedLength))
  ∧ (e.offset ≤ o → o < e.offset + e.deletedLength → mapOffsetForward [e] baseSeq o = none)
  ∧ mapOffsetForward editBeforeDoc.log 0 24 = some 53 := by
  have hfil : editsAfter [e] baseSeq = [e] := by
    simp [editsAfter, List.filter, h]
  refine ⟨?_, ?_, ?_, by decide⟩
  · intro ho
    simp [mapOffsetForward, hfil, Edit.mapForward, ho]
  · intro ho
    have h1 : ¬ o < e.offset := by omega
    have h2 : ¬ o < e.offset + e.deletedLength := by omega
    simp [mapOffsetForward, hfil, Edit.mapForward, h1, h2]
  · intro h1 h2
    have h3 : ¬ o < e.offset := by omega
    simp [mapOffsetForward, hfil, Edit.mapForward, h3, h2]

theorem mapOffsetForwardPointwiseWitness :
    mapOffsetForward
      [{ sequence := 1, offset := 5, deletedLength := 2, insertedText := "abc".data }]
      0 9 = some 10 :=
  (mapOffsetForwardPointwise
    { sequence := 1, offset := 5, deletedLength := 2, insertedText := "abc".data }
    0 9 (by decide)).2.1 (by decide)

/-- C8: A PendingQuery's WaitGate is signalled exactly once: `signal` after the first
call is a no-op (the first result is the one kept), a fresh gate given a first signal
followed by any further calls ends signalled with the first result, the resolution of
a PendingQuery issues exactly one signal for every outcome (success, failure, or
timeout), and `wait(deadline)` returns Expired when the deadline passes strictly
before the signal arrives. -/
theorem pendingQuerySignalledExactlyOnce :
    (∀ (g : GateState) (r r2 : PendingOutcome), (g.signal r).signal r2 = g.signal r)
  ∧ (∀ (r : PendingOutcome) (rest : List PendingOutcome),
      runSignals (r :: rest) = GateState.signalled r)
  ∧ (∀ (o : PendingOutcome), (resolutionSignals o).length = 1
      ∧ runSignals (resolutionSignals o) = GateState.signalled o)
  ∧ (∀ (deadline t : Nat) (r : PendingOutcome),
      deadline < t → gateWait deadline (some (t, r)) = WaitOutcome.expired) := by
  refine ⟨?_, ?_, ?_, ?_⟩
  · intro g r r2
    cases g <;> rfl
  · intro r rest
    rw [runSignals, List.foldl_cons]
    exact runSignalsFromSignalled rest r
  · intro o
    exact ⟨rfl, rfl⟩
  · intro deadline t r h
    have hn : ¬ t ≤ deadline := by omega
    simp [gateWait, hn]

theorem pendingQuerySignalledExactlyOnceWitness :
    gateWait 3 (some (60, PendingOutcome.failure)) = WaitOutcome.expired :=
  pendingQuerySignalledExactlyOnce.2.2.2 3 60 PendingOutcome.failure (by decide)

/-- C9: Opening `"let foo = 0\n"` with analyzer arguments naming a non-existent file
and querying at the declaration of `foo` still returns an Occurrence with Name `foo`
and TypeName `Int` rather than a BuildFailure: invalid compiler arguments do not
prevent the query from being answered. -/
theorem invalidArgumentsStillAnswer :
    queryAt fileNotExistDoc none 4 notExistArgs =
      QueryOutcome.found { Name := "foo", TypeName := "Int", FileName := docName,
                           tokenLoc := (4, 3), DeclarationLoc := some (4, 3) }
  ∧ queryAt fileNotExistDoc none 4 notExistArgs ≠ QueryOutcome.buildFailure := by
  decide

/-- C10: In every scenario exercised by the suite — the initial no-Snapshot queries,
the answer-immediately edit scenarios, every must-wait scenario and the race — the
query resolves before the deadline: no tested query yields `Timeout`, so the expired
branch of the test harness's wait is unreachable. -/
theorem noTestedQueryTimesOut :
    (queryAt baseRefFirst none 12 stdArgs).isTimeout = false
  ∧ (queryAt baseDeclFirst none 24 stdArgs).isTimeout = false
  ∧ (queryAt fileNotExistDoc none 4 notExistArgs).isTimeout = false
  ∧ (queryAt scenarioOneDoc none 24 stdArgs).isTimeout = false
  ∧ (queryAt editAfterDoc (some (snapshotAt editAfterDoc 0)) 12 stdArgs).isTimeout = false
  ∧ (queryAt editBeforeDoc (some (snapshotAt editBeforeDoc 0)) 53 stdArgs).isTimeout = false
  ∧ (queryAt declLocDoc (some (snapshotAt declLocDoc 0)) 12 stdArgs).isTimeout = false
  ∧ (queryAt offsetDoc (some (snapshotAt offsetDoc 0)) 12 stdArgs).isTimeout = false
  ∧ (queryAt tokenDoc (some (snapshotAt tokenDoc 0)) 12 stdArgs).isTimeout = false
  ∧ (queryAt raceDoc (some (snapshotAt raceDoc 0)) 12 stdArgs).isTimeout = false := by
  decide

end CursorInfo
